import Mathlib

/-!
Verification of the `crud` package (list.go, response.go): a generic,
paginated HTTP list handler. We shallowly embed the handler pipeline as a
pure function producing the ordered trace of its observable actions
(accessor calls, writer emissions, runtime panics). Go `int` is modelled as
a 64-bit twos-complement integer: every arithmetic step is reduced by
`wrap64`, and the Go `/` operator (truncation toward zero, panic on zero
divisor) is `goQuot`.
-/

namespace Crud

/-- Twos-complement wrap-around of 64-bit Go `int` arithmetic. -/
def wrap64 (x : Int) : Int := (x + 2 ^ 63) % 2 ^ 64 - 2 ^ 63

/-- Go integer division: truncation toward zero; a zero divisor is a
runtime panic, modelled as `none`. -/
def goQuot (a b : Int) : Option Int :=
  if b = 0 then none else some (Int.tdiv a b)

/-- `PaginatedQuery` from list.go: page number and page size, both Go `int`.
Form tags: `page` is `required,min=1`; `page_size` is `required,min=1,max=100`. -/
structure PaginatedQuery where
  page : Int
  pageSize : Int
deriving DecidableEq, Repr

/-- The validator run by `Handle` on a query exposing the standard pagination
fields, read off the struct tags of `PaginatedQuery` (`required` on an int
means nonzero; `min`/`max` are inclusive bounds). -/
def validPaginated (p : PaginatedQuery) : Bool :=
  (decide (p.page ≠ 0) && decide (1 ≤ p.page))
    && (decide (p.pageSize ≠ 0) && decide (1 ≤ p.pageSize) && decide (p.pageSize ≤ 100))

/-- A Go `error` value as the handler sees it: a message, optionally
carrying structured details exposed through a `Details()` accessor
(response.go line 60). The sentinel errors built with `errors.New` are
`basic`. -/
inductive GoErr where
  | basic (msg : String)
  | withDetails (msg : String) (details : String)
deriving DecidableEq, Repr

/-- `err.Error()`: the error message. -/
def GoErr.message : GoErr → String
  | .basic m => m
  | .withDetails m _ => m

/-- The result of the type assertion `err.(interface{ Details() interface{} })`:
`some` exactly when the error exposes a `Details()` accessor. -/
def GoErr.detailsOf : GoErr → Option String
  | .basic _ => none
  | .withDetails _ d => some d

/-- `ErrBadRequest = errors.New("bad request")` from list.go. -/
def ErrBadRequest : GoErr := .basic "bad request"

/-- `ErrInternal = errors.New("internal server error")` from list.go. -/
def ErrInternal : GoErr := .basic "internal server error"

/-- `ErrorResponse` from response.go: status, message, optional details. -/
structure ErrorResponse where
  status : Int
  message : String
  details : Option String
deriving DecidableEq, Repr

/-- `DefaultResponseWriter.Error` (response.go lines 53-62): wraps the error
in an `ErrorResponse` carrying the given status and `err.Error()`, and
populates `details` when the error exposes a `Details()` accessor. -/
def writerErrorResponse (err : GoErr) (status : Int) : ErrorResponse :=
  { status := status
    message := err.message
    details :=
      match err with
      | .withDetails _ d => some d
      | .basic _ => none }

/-- The `pagination` object of the success payload (list.go lines 130-134). -/
structure Pagination where
  total : Int
  page : Int
  pageSize : Int
deriving DecidableEq, Repr

/-- One observable action of `Handle`, in order: a call into the data
accessor, an emission through the response writer, or a runtime panic. -/
inductive Event (T Q : Type) where
  | listCall (q : Q) (offset limit : Int)
  | countCall (q : Q)
  | wroteError (r : ErrorResponse)
  | wroteResponse (items : List T) (pag : Pagination) (status : Int)
  | panicked (msg : String)
deriving DecidableEq, Repr

/-- The `Listable[T, Q]` data accessor: `List` and `Count`, each returning a
value or a Go error. -/
structure Listable (T Q : Type) where
  list : Q → Int → Int → Except GoErr (List T)
  count : Q → Except GoErr Int

/-- The pagination branch of `Handle` (list.go lines 102-107): when the query
exposes `GetPagination`, `offset = (page-1)*pageSize` and `limit = pageSize`
in wrapping Go `int` arithmetic; otherwise both stay zero. -/
def effectivePagination {Q : Type} (pag : Option (Q → PaginatedQuery)) (q : Q) :
    Int × Int :=
  match pag with
  | some gp =>
      (wrap64 (wrap64 ((gp q).page - 1) * (gp q).pageSize), (gp q).pageSize)
  | none => (0, 0)

/-- The `page` echoed in the success payload (list.go line 132):
`offset/limit + 1` in Go arithmetic; `none` is the divide-by-zero panic. -/
def echoPage (offset limit : Int) : Option Int :=
  (goQuot offset limit).map (fun d => wrap64 (d + 1))

/-- Shallow embedding of `ListHandler.Handle` (list.go lines 68-143) as the
ordered trace of its observable actions. `dec` is the outcome of
`decoder.Decode` on the request's query string, `valid` the outcome of
`validate.Struct`, and `pag` is `some` exactly when the query type satisfies
the `interface{ GetPagination() PaginatedQuery }` assertion. -/
def Handle {T Q : Type} (dec : Except GoErr Q) (valid : Q → Bool)
    (pag : Option (Q → PaginatedQuery)) (acc : Listable T Q) :
    List (Event T Q) :=
  match dec with
  | .error _ => [.wroteError (writerErrorResponse ErrBadRequest 400)]
  | .ok query =>
    if valid query = false then
      [.wroteError (writerErrorResponse ErrBadRequest 400)]
    else
      let offset := (effectivePagination pag query).1
      let limit := (effectivePagination pag query).2
      match acc.list query offset limit with
      | .error _ =>
          [.listCall query offset limit,
           .wroteError (writerErrorResponse ErrInternal 500)]
      | .ok items =>
        match acc.count query with
        | .error _ =>
            [.listCall query offset limit, .countCall query,
             .wroteError (writerErrorResponse ErrInternal 500)]
        | .ok total =>
          match echoPage offset limit with
          | none =>
              [.listCall query offset limit, .countCall query,
               .panicked "runtime error: integer divide by zero"]
          | some pageEcho =>
              [.listCall query offset limit, .countCall query,
               .wroteResponse items ⟨total, pageEcho, limit⟩ 200]

/-- The error responses emitted on a trace, in order. -/
def errorsOf {T Q : Type} : List (Event T Q) → List ErrorResponse
  | [] => []
  | .wroteError r :: rest => r :: errorsOf rest
  | _ :: rest => errorsOf rest

/-- `true` exactly when the accessor pipeline fails at this query: `List`
returns an error, or `List` succeeds and `Count` returns an error. -/
def accessorFails {T Q : Type} (acc : Listable T Q) (q : Q)
    (offset limit : Int) : Bool :=
  match acc.list q offset limit with
  | .error _ => true
  | .ok _ =>
    match acc.count q with
    | .error _ => true
    | .ok _ => false

/-- `true` when the request dies before reaching the accessor: the query
string fails decoding, or the decoded query fails structural validation. -/
def preAccessorFails {Q : Type} (dec : Except GoErr Q) (valid : Q → Bool) : Bool :=
  match dec with
  | .error _ => true
  | .ok q => !(valid q)

/-- Accumulate the value of a run of decimal digit characters; any other
character is a parse failure. -/
def digitsVal (acc : Nat) : List Char → Option Nat
  | [] => some acc
  | c :: cs => if c.isDigit then digitsVal (acc * 10 + (c.toNat - 48)) cs else none

/-- Modelled from the spec: the strconv-style integer conversion the
go-playground form library (an external dependency, not in this repository)
applies to a query-string value bound to an `int` field. A malformed or
out-of-range value is a conversion failure (`none`). -/
def parseGoInt (s : String) : Option Int :=
  match s.toList with
  | [] => none
  | '-' :: ds =>
    if ds.isEmpty then none
    else
      match digitsVal 0 ds with
      | none => none
      | some n => if n ≤ 2 ^ 63 then some (-(n : Int)) else none
  | ds =>
    match digitsVal 0 ds with
    | none => none
    | some n => if n < 2 ^ 63 then some ((n : Int)) else none

/-- First value bound to key `k` among the query parameters. -/
def formValue (params : List (String × String)) (k : String) : Option String :=
  (params.find? (fun p => p.1 == k)).map (fun p => p.2)

/-- Modelled from the spec: how the form decoder fills one `int` field: a
missing parameter leaves the zero value, a present one must convert. -/
def decodeIntField (params : List (String × String)) (k : String) :
    Except GoErr Int :=
  match formValue params k with
  | none => .ok 0
  | some v =>
    match parseGoInt v with
    | none => .error (.basic ("failed to decode field " ++ k))
    | some n => .ok n

/-- Modelled from the spec: `decoder.Decode(&query, r.URL.Query())` for a
query carrying the standard `PaginatedQuery` fields (`page`, `page_size`). -/
def decodePaginated (params : List (String × String)) :
    Except GoErr PaginatedQuery := do
  let p ← decodeIntField params "page"
  let ps ← decodeIntField params "page_size"
  pure ⟨p, ps⟩

/-- An accessor whose `List` and `Count` always succeed with empty data. -/
def accUnit : Listable Unit PaginatedQuery :=
  ⟨fun _ _ _ => .ok [], fun _ => .ok 0⟩

/-- An accessor whose `List` fails with a backend error. -/
def accListFails : Listable Unit PaginatedQuery :=
  ⟨fun _ _ _ => .error (.basic "pq: connection refused"), fun _ => .ok 0⟩

/-- An accessor whose `List` succeeds but whose `Count` fails. -/
def accCountFails : Listable String PaginatedQuery :=
  ⟨fun _ _ _ => .ok ["item1"], fun _ => .error (.basic "pq: count timed out")⟩

/-- The accessor of the worked example: `List` returns one item, `Count`
returns 1. -/
def accOneItem : Listable String PaginatedQuery :=
  ⟨fun _ _ _ => .ok ["item1"], fun _ => .ok 1⟩

/-- A second accessor extensionally equal to `accUnit`, declared separately. -/
def accUnitCopy : Listable Unit PaginatedQuery :=
  ⟨fun _ _ _ => .ok [], fun _ => .ok 0⟩

/-- The 400 envelope the handler sends for `ErrBadRequest`. -/
theorem writer_badRequest :
    writerErrorResponse ErrBadRequest 400 = ⟨400, "bad request", none⟩ := rfl

/-- The 500 envelope the handler sends for `ErrInternal`. -/
theorem writer_internal :
    writerErrorResponse ErrInternal 500 =
      ⟨500, "internal server error", none⟩ := rfl

/-- Claim C1: the claim states that for a Query type without the pagination
capability, when decode, validation, List and Count all succeed, Handle
emits a success response echoing page 1 rather than faulting. The code
instead evaluates `offset/limit + 1` with `offset = limit = 0`, a Go
integer divide-by-zero panic: the trace ends in a panic and no response is
written. This theorem evaluates the handler at such a failing input. -/
theorem C1_no_pagination_divide_by_zero :
    Handle (T := String) (Q := Unit) (.ok ()) (fun _ => true) none
        ⟨fun _ _ _ => .ok [], fun _ => .ok 0⟩ =
      [.listCall () 0 0, .countCall (),
       .panicked "runtime error: integer divide by zero"] := by
  rfl

/-- Claim C6: for the query string `page=1&page_size=10`, an accessor whose
List returns one item and whose Count returns 1, Handle passes the success
payload (items = item1; pagination total 1, page 1, page size 10) to the
response writer with status 200, after calling List with offset 0 and
limit 10 and then Count. -/
theorem C6_success_example :
    Handle (decodePaginated [("page", "1"), ("page_size", "10")])
        validPaginated (some id) accOneItem =
      [.listCall ⟨1, 10⟩ 0 10, .countCall ⟨1, 10⟩,
       .wroteResponse ["item1"] ⟨1, 1, 10⟩ 200] := by
  rfl

/-- Claim C3: whenever decoding the query string fails, or the decoded
query fails structural validation, Handle emits exactly one BadRequest
error with status 400 and never invokes the accessor: the whole trace is
that single error emission. -/
theorem C3_bad_request {T Q : Type} (dec : Except GoErr Q) (valid : Q → Bool)
    (pag : Option (Q → PaginatedQuery)) (acc : Listable T Q)
    (h : preAccessorFails dec valid = true) :
    Handle dec valid pag acc = [.wroteError ⟨400, "bad request", none⟩] := by
  cases dec with
  | error e => rfl
  | ok q =>
    simp only [preAccessorFails, Bool.not_eq_true'] at h
    simp [Handle, h, writer_badRequest]

/-- Claim C3 witness: a non-numeric page fails decoding; page=0 and
page_size=101 decode but fail validation; in all three cases the trace is
the single 400 emission. -/
theorem C3_bad_request_witness :
    (preAccessorFails (decodePaginated [("page", "abc"), ("page_size", "10")])
        validPaginated = true ∧
      Handle (T := Unit) (decodePaginated [("page", "abc"), ("page_size", "10")])
        validPaginated (some id) accUnit =
        [.wroteError ⟨400, "bad request", none⟩]) ∧
    (preAccessorFails (decodePaginated [("page", "0"), ("page_size", "10")])
        validPaginated = true ∧
      Handle (T := Unit) (decodePaginated [("page", "0"), ("page_size", "10")])
        validPaginated (some id) accUnit =
        [.wroteError ⟨400, "bad request", none⟩]) ∧
    (preAccessorFails (decodePaginated [("page", "1"), ("page_size", "101")])
        validPaginated = true ∧
      Handle (T := Unit) (decodePaginated [("page", "1"), ("page_size", "101")])
        validPaginated (some id) accUnit =
        [.wroteError ⟨400, "bad request", none⟩]) :=
  ⟨⟨by decide, C3_bad_request _ _ _ _ (by decide)⟩,
   ⟨by decide, C3_bad_request _ _ _ _ (by decide)⟩,
   ⟨by decide, C3_bad_request _ _ _ _ (by decide)⟩⟩

/-- Claim C4: when the accessor List call returns an error, Handle emits
exactly one Internal error with status 500 and does not call Count: the
trace is the List call followed by that single error emission. -/
theorem C4_list_error {T Q : Type} (q : Q) (valid : Q → Bool)
    (pag : Option (Q → PaginatedQuery)) (acc : Listable T Q) (e : GoErr)
    (hv : valid q = true)
    (hl : acc.list q (effectivePagination pag q).1
        (effectivePagination pag q).2 = .error e) :
    Handle (.ok q) valid pag acc =
      [.listCall q (effectivePagination pag q).1 (effectivePagination pag q).2,
       .wroteError ⟨500, "internal server error", none⟩] := by
  simp [Handle, hv, hl, writer_internal]

/-- Claim C4 witness: a backend failure in List at page=1, page_size=10. -/
theorem C4_list_error_witness :
    validPaginated ⟨1, 10⟩ = true ∧
      Handle (.ok (⟨1, 10⟩ : PaginatedQuery)) validPaginated (some id)
          accListFails =
        [.listCall ⟨1, 10⟩ 0 10,
         .wroteError ⟨500, "internal server error", none⟩] :=
  ⟨by decide,
   C4_list_error ⟨1, 10⟩ validPaginated (some id) accListFails
     (.basic "pq: connection refused") (by decide) rfl⟩

/-- Claim C5: when List succeeds but Count returns an error, Handle emits
exactly one Internal error with status 500; no success response appears in
the trace, so the items List returned are discarded. -/
theorem C5_count_error {T Q : Type} (q : Q) (valid : Q → Bool)
    (pag : Option (Q → PaginatedQuery)) (acc : Listable T Q)
    (items : List T) (e : GoErr)
    (hv : valid q = true)
    (hl : acc.list q (effectivePagination pag q).1
        (effectivePagination pag q).2 = .ok items)
    (hc : acc.count q = .error e) :
    Handle (.ok q) valid pag acc =
      [.listCall q (effectivePagination pag q).1 (effectivePagination pag q).2,
       .countCall q,
       .wroteError ⟨500, "internal server error", none⟩] := by
  simp [Handle, hv, hl, hc, writer_internal]

/-- Claim C5 witness: Count fails after List returned one item; the item is
never written. -/
theorem C5_count_error_witness :
    validPaginated ⟨1, 10⟩ = true ∧
      Handle (.ok (⟨1, 10⟩ : PaginatedQuery)) validPaginated (some id)
          accCountFails =
        [.listCall ⟨1, 10⟩ 0 10, .countCall ⟨1, 10⟩,
         .wroteError ⟨500, "internal server error", none⟩] :=
  ⟨by decide,
   C5_count_error ⟨1, 10⟩ validPaginated (some id) accCountFails
     ["item1"] (.basic "pq: count timed out") (by decide) rfl rfl⟩

/-- Claim C9: the error response built by the default response writer
carries the given status and the error message, and its details field holds
the value of the Details accessor exactly when the error exposes one,
absent otherwise. -/
theorem C9_writer_details (err : GoErr) (status : Int) :
    (writerErrorResponse err status).status = status ∧
      (writerErrorResponse err status).message = err.message ∧
      (writerErrorResponse err status).details = err.detailsOf := by
  cases err <;>
    simp [writerErrorResponse, GoErr.message, GoErr.detailsOf]

/-- Claim C8: Handle is deterministic: with the same decoded query,
validator and pagination capability, two accessors whose List and Count
return identical results yield identical traces, hence identical payloads
and statuses at the response writer. -/
theorem C8_deterministic {T Q : Type} (dec : Except GoErr Q)
    (valid : Q → Bool) (pag : Option (Q → PaginatedQuery))
    (acc1 acc2 : Listable T Q)
    (hl : ∀ q o l, acc1.list q o l = acc2.list q o l)
    (hc : ∀ q, acc1.count q = acc2.count q) :
    Handle dec valid pag acc1 = Handle dec valid pag acc2 := by
  cases dec with
  | error e => rfl
  | ok q => simp only [Handle, hl, hc]

/-- Claim C8 witness: two separately declared accessors with identical
behavior produce identical traces. -/
theorem C8_deterministic_witness :
    Handle (.ok (⟨1, 10⟩ : PaginatedQuery)) validPaginated (some id) accUnit =
      Handle (.ok (⟨1, 10⟩ : PaginatedQuery)) validPaginated (some id)
        accUnitCopy :=
  C8_deterministic _ _ _ accUnit accUnitCopy (fun _ _ _ => rfl) (fun _ => rfl)

/-- On an accessor failure (List errors, or List succeeds and Count errors)
the trace emits exactly the fixed internal-error envelope, independent of
the underlying error value. -/
theorem errorsOf_accessor_failure {T Q : Type} (q : Q) (valid : Q → Bool)
    (pag : Option (Q → PaginatedQuery)) (acc : Listable T Q)
    (hv : valid q = true)
    (hf : accessorFails acc q (effectivePagination pag q).1
        (effectivePagination pag q).2 = true) :
    errorsOf (Handle (.ok q) valid pag acc) =
      [⟨500, "internal server error", none⟩] := by
  unfold accessorFails at hf
  cases hl : acc.list q (effectivePagination pag q).1
      (effectivePagination pag q).2 with
  | error e => simp [Handle, hv, hl, errorsOf, writer_internal]
  | ok items =>
    rw [hl] at hf
    cases hc : acc.count q with
    | error e => simp [Handle, hv, hl, hc, errorsOf, writer_internal]
    | ok total => rw [hc] at hf; simp at hf

/-- Claim C7: whenever the accessor pipeline fails, in either of two runs
and at either stage (List or Count), the error response is the same fixed
envelope: status 500 with the generic message, details absent; in
particular the underlying accessor error text never reaches the client and
the two emitted error lists coincide. -/
theorem C7_internal_error_uniform {T1 Q1 T2 Q2 : Type}
    (q1 : Q1) (valid1 : Q1 → Bool) (pag1 : Option (Q1 → PaginatedQuery))
    (acc1 : Listable T1 Q1)
    (q2 : Q2) (valid2 : Q2 → Bool) (pag2 : Option (Q2 → PaginatedQuery))
    (acc2 : Listable T2 Q2)
    (hv1 : valid1 q1 = true) (hv2 : valid2 q2 = true)
    (hf1 : accessorFails acc1 q1 (effectivePagination pag1 q1).1
        (effectivePagination pag1 q1).2 = true)
    (hf2 : accessorFails acc2 q2 (effectivePagination pag2 q2).1
        (effectivePagination pag2 q2).2 = true) :
    errorsOf (Handle (.ok q1) valid1 pag1 acc1) =
        [⟨500, "internal server error", none⟩] ∧
      errorsOf (Handle (.ok q2) valid2 pag2 acc2) =
        [⟨500, "internal server error", none⟩] ∧
      errorsOf (Handle (.ok q1) valid1 pag1 acc1) =
        errorsOf (Handle (.ok q2) valid2 pag2 acc2) := by
  have h1 := errorsOf_accessor_failure q1 valid1 pag1 acc1 hv1 hf1
  have h2 := errorsOf_accessor_failure q2 valid2 pag2 acc2 hv2 hf2
  exact ⟨h1, h2, h1.trans h2.symm⟩

/-- Claim C7 witness: one run failing in List, one failing in Count, with
distinct backend error messages; the emitted error responses coincide. -/
theorem C7_internal_error_uniform_witness :
    errorsOf (Handle (.ok (⟨1, 10⟩ : PaginatedQuery)) validPaginated
        (some id) accListFails) =
      errorsOf (Handle (.ok (⟨1, 10⟩ : PaginatedQuery)) validPaginated
        (some id) accCountFails) :=
  (C7_internal_error_uniform ⟨1, 10⟩ validPaginated (some id) accListFails
    ⟨1, 10⟩ validPaginated (some id) accCountFails
    (by decide) (by decide) (by decide) (by decide)).2.2

/-- Under the validated bounds and absent int64 overflow, the wrapped
pagination arithmetic of the handler collapses to exact arithmetic. -/
theorem effectivePagination_exact {Q : Type} (gp : Q → PaginatedQuery) (q : Q)
    (hpage : 1 ≤ (gp q).page) (hsize : 1 ≤ (gp q).pageSize)
    (hof : ((gp q).page - 1) * (gp q).pageSize < 2 ^ 63) :
    effectivePagination (some gp) q =
      (((gp q).page - 1) * (gp q).pageSize, (gp q).pageSize) := by
  have hp0 : (0 : Int) ≤ (gp q).page - 1 := by omega
  have hs0 : (0 : Int) ≤ (gp q).pageSize := by omega
  have hle : (gp q).page - 1 ≤ ((gp q).page - 1) * (gp q).pageSize := by
    nlinarith
  have hprod0 : (0 : Int) ≤ ((gp q).page - 1) * (gp q).pageSize :=
    mul_nonneg hp0 hs0
  have h1 : wrap64 ((gp q).page - 1) = (gp q).page - 1 := by
    unfold wrap64; omega
  have h2 : wrap64 (((gp q).page - 1) * (gp q).pageSize) =
      ((gp q).page - 1) * (gp q).pageSize := by
    unfold wrap64; omega
  simp [effectivePagination, h1, h2]

/-- Claim C2 (amended): for every validated query with page ≥ 1 and
page_size in [1,100] whose product (page-1)*page_size stays below 2^63
(no int64 overflow), Handle passes exactly offset = (page-1)*page_size and
limit = page_size to the accessor List call, the first action of the trace.
On overflow the offset wraps modulo 2^64 instead of being exact. -/
theorem C2_pagination_args {T Q : Type} (q : Q) (gp : Q → PaginatedQuery)
    (valid : Q → Bool) (acc : Listable T Q)
    (hv : valid q = true)
    (hpage : 1 ≤ (gp q).page)
    (hsize1 : 1 ≤ (gp q).pageSize) (_hsize2 : (gp q).pageSize ≤ 100)
    (hof : ((gp q).page - 1) * (gp q).pageSize < 2 ^ 63) :
    (Handle (.ok q) valid (some gp) acc).head? =
      some (.listCall q (((gp q).page - 1) * (gp q).pageSize)
        (gp q).pageSize) := by
  have hoff := effectivePagination_exact gp q hpage hsize1 hof
  cases hl : acc.list q (((gp q).page - 1) * (gp q).pageSize)
      (gp q).pageSize with
  | error e => simp [Handle, hv, hoff, hl]
  | ok items =>
    cases hc : acc.count q with
    | error e => simp [Handle, hv, hoff, hl, hc]
    | ok total =>
      cases he : echoPage (((gp q).page - 1) * (gp q).pageSize)
          (gp q).pageSize with
      | none => simp [Handle, hv, hoff, hl, hc, he]
      | some p => simp [Handle, hv, hoff, hl, hc, he]

/-- Claim C2 counterexample: at page = 2^62 + 1 and page_size = 2 (within
the stated bounds page ≥ 1, page_size in [1,100]) the offset passed to List
is the wrapped value -2^63, not (page-1)*page_size = 2^63: as stated, the
claim fails on int64 overflow. -/
theorem C2_pagination_args_overflow :
    (Handle (T := Unit) (.ok (⟨2 ^ 62 + 1, 2⟩ : PaginatedQuery))
        validPaginated (some id) accUnit).head? =
      some (.listCall ⟨2 ^ 62 + 1, 2⟩ (-(2 ^ 63)) 2) ∧
      (-(2 ^ 63) : Int) ≠ ((2 ^ 62 + 1 : Int) - 1) * 2 :=
  ⟨rfl, by decide⟩

/-- Claim C2 witness: page 3, page size 10 yield offset 20, limit 10. -/
theorem C2_pagination_args_witness :
    validPaginated ⟨3, 10⟩ = true ∧
      (Handle (T := Unit) (.ok (⟨3, 10⟩ : PaginatedQuery)) validPaginated
          (some id) accUnit).head? =
        some (.listCall ⟨3, 10⟩ (((3 : Int) - 1) * 10) 10) :=
  ⟨by decide,
   C2_pagination_args ⟨3, 10⟩ id validPaginated accUnit (by decide)
     (by decide) (by decide) (by decide) (by decide)⟩

/-- Claim C10 (amended): with the pagination capability present, for every
validated query with page ≥ 1 below 2^63, page_size ≥ 1, and no int64
overflow in (page-1)*page_size, a fully successful pipeline echoes exactly
the requested page: the offset is an exact multiple of the limit, so the
integer division in the echo loses nothing. On overflow the echoed page
differs from the requested one. -/
theorem C10_page_roundtrip {T Q : Type} (q : Q) (gp : Q → PaginatedQuery)
    (valid : Q → Bool) (acc : Listable T Q) (items : List T) (total : Int)
    (hv : valid q = true)
    (hpage : 1 ≤ (gp q).page) (hrange : (gp q).page < 2 ^ 63)
    (hsize : 1 ≤ (gp q).pageSize)
    (hof : ((gp q).page - 1) * (gp q).pageSize < 2 ^ 63)
    (hl : acc.list q (effectivePagination (some gp) q).1
        (effectivePagination (some gp) q).2 = .ok items)
    (hc : acc.count q = .ok total) :
    Handle (.ok q) valid (some gp) acc =
      [.listCall q (((gp q).page - 1) * (gp q).pageSize) (gp q).pageSize,
       .countCall q,
       .wroteResponse items ⟨total, (gp q).page, (gp q).pageSize⟩ 200] := by
  have hoff := effectivePagination_exact gp q hpage hsize hof
  rw [hoff] at hl
  have hsne : (gp q).pageSize ≠ 0 := by omega
  have hdiv : Int.tdiv (((gp q).page - 1) * (gp q).pageSize) (gp q).pageSize
      = (gp q).page - 1 := Int.mul_tdiv_cancel _ hsne
  have hecho : echoPage (((gp q).page - 1) * (gp q).pageSize) (gp q).pageSize
      = some ((gp q).page) := by
    have hw : wrap64 ((gp q).page) = (gp q).page := by
      unfold wrap64; omega
    simp [echoPage, goQuot, hsne, hdiv, hw]
  simp [Handle, hv, hoff, hl, hc, hecho]

/-- Claim C10 counterexample: at page = 2^62 + 1, page_size = 2 the offset
wraps to -2^63 and the echoed page is -2^62 + 1, not the requested page:
the round-trip fails on int64 overflow. -/
theorem C10_page_roundtrip_overflow :
    echoPage
        (effectivePagination (some id) (⟨2 ^ 62 + 1, 2⟩ : PaginatedQuery)).1
        (effectivePagination (some id) (⟨2 ^ 62 + 1, 2⟩ : PaginatedQuery)).2 =
      some (-(2 ^ 62) + 1) ∧
      (-(2 ^ 62) + 1 : Int) ≠ (⟨2 ^ 62 + 1, 2⟩ : PaginatedQuery).page :=
  ⟨rfl, by decide⟩

/-- Claim C10 witness: page 7, page size 3: offset 18, and the success
payload echoes page 7. -/
theorem C10_page_roundtrip_witness :
    validPaginated ⟨7, 3⟩ = true ∧
      Handle (T := Unit) (.ok (⟨7, 3⟩ : PaginatedQuery)) validPaginated
          (some id) accUnit =
        [.listCall ⟨7, 3⟩ (((7 : Int) - 1) * 3) 3, .countCall ⟨7, 3⟩,
         .wroteResponse [] ⟨0, 7, 3⟩ 200] :=
  ⟨by decide,
   C10_page_roundtrip ⟨7, 3⟩ id validPaginated accUnit [] 0 (by decide)
     (by decide) (by decide) (by decide) (by decide) rfl rfl⟩

end Crud
